import Mathlib

/-!
# Verification of the LeadScrapper crawl-and-extract engine

Shallow embedding of the core of the `LeadScrapper` repository
(`src/parser.py`, `src/url_builder.py`, `src/models.py`, `src/scraper.py`)
together with theorems settling the frozen claims about it.

Modelling conventions:
* HTML documents are modelled as a tree of element / text nodes (`Node`);
  a parsed soup is an element node with the pseudo-tag `"[document]"`
  whose children are the top-level parsed nodes, so every found tag has
  a parent and a sibling context, as in BeautifulSoup.
* Python strings are Lean `String`s.  `str.lower` is modelled ASCII-only
  (the placeholder list and the labels relevant to the claims are not
  affected).  `html.unescape` is modelled on the five standard entities;
  no claim depends on the remaining entity table.
* Machine `int` counts are modelled as `Nat` (all the counters involved
  are non-negative); the success-rate float is modelled as `ℚ`.
* Network effects are modelled by oracles: a fetch call is a function
  from the attempt number to the observed outcome, and the instrumented
  model additionally returns the list of externally visible events
  (request issued, inter-request delay, backoff sleep, User-Agent swap).
-/

/-! ## String utilities (parser.py `_clean_text`, `_is_placeholder`) -/

/-- The ASCII whitespace class matched by Python's regex class for
whitespace on the texts involved here. -/
def isWsChar (c : Char) : Bool :=
  c = ' ' || c = '\t' || c = '\n' || c = '\x0d' || c = '\x0b' || c = '\x0c'

/-- `html.unescape`, modelled on the standard named/numeric entities
(`amp`, `lt`, `gt`, `quot`, `#39`); the claims do not depend on the
rest of the HTML5 entity table. -/
def unescapeChars : List Char → List Char
  | '&' :: 'a' :: 'm' :: 'p' :: ';' :: rest => '&' :: unescapeChars rest
  | '&' :: 'l' :: 't' :: ';' :: rest => '<' :: unescapeChars rest
  | '&' :: 'g' :: 't' :: ';' :: rest => '>' :: unescapeChars rest
  | '&' :: 'q' :: 'u' :: 'o' :: 't' :: ';' :: rest => '"' :: unescapeChars rest
  | '&' :: '#' :: '3' :: '9' :: ';' :: rest => '\'' :: unescapeChars rest
  | c :: rest => c :: unescapeChars rest
  | [] => []

/-- Collapse maximal whitespace runs to a single `' '`; the `Bool`
records whether a run is pending (emitted before the next word). -/
def collapseWsAux : Bool → List Char → List Char
  | _, [] => []
  | pending, c :: rest =>
    if isWsChar c then collapseWsAux true rest
    else if pending then ' ' :: c :: collapseWsAux false rest
    else c :: collapseWsAux false rest

/-- `re.sub(r"\s+", " ", text).strip()`: collapse interior whitespace
runs to one space, drop leading and trailing whitespace. -/
def collapseWs (l : List Char) : List Char :=
  collapseWsAux false (l.dropWhile isWsChar)

/-- `_clean_text` (parser.py): decode HTML entities, then normalise
whitespace.  `None` input is handled by the callers passing `""`. -/
def clean_text (s : String) : String :=
  String.mk (collapseWs (unescapeChars s.toList))

/-- ASCII `str.lower` (the placeholder phrases and labels that matter
contain no non-ASCII uppercase letters). -/
def lowerAscii (s : String) : String :=
  String.mk (s.toList.map Char.toLower)

/-- Python's substring test `needle in hay` on char lists. -/
def listContainsSub (hay needle : List Char) : Bool :=
  (List.range (hay.length + 1)).any (fun i => needle.isPrefixOf (hay.drop i))

/-- Python's substring test `needle in hay` on strings. -/
def containsSub (hay needle : String) : Bool :=
  listContainsSub hay.toList needle.toList

/-- The fixed placeholder list of `_is_placeholder` (parser.py). -/
def placeholders : List String :=
  ["añadir", "agregar", "no disponible", "no consta"]

/-- `_is_placeholder` (parser.py): case-insensitive substring test
against the fixed placeholder list. -/
def is_placeholder (text : String) : Bool :=
  placeholders.any (fun p => containsSub (lowerAscii text) p)

/-- `int(...)` on a non-empty digit string. -/
def digitsToNat (ds : List Char) : Nat :=
  ds.foldl (fun n c => n * 10 + (c.toNat - '0'.toNat)) 0

/-! ## The DOM model -/

/-- A parsed HTML node: an element with a tag, attributes and children,
or a text node. -/
inductive Node where
  | elem (tag : String) (attrs : List (String × String)) (children : List Node)
  | text (s : String)

mutual

/-- Structural equality of nodes — BeautifulSoup compares two tags by
their markup (deep equality), not by identity. -/
def nodeEq : Node → Node → Bool
  | .text s, .text t => s == t
  | .elem t1 a1 c1, .elem t2 a2 c2 => t1 == t2 && a1 == a2 && nodesEq c1 c2
  | _, _ => false

def nodesEq : List Node → List Node → Bool
  | [], [] => true
  | x :: xs, y :: ys => nodeEq x y && nodesEq xs ys
  | _, _ => false

end

instance : BEq Node := ⟨nodeEq⟩

/-- `Tag.get_text()`: concatenation of all descendant text. -/
def Node.getText : Node → String
  | .text s => s
  | .elem _ _ cs => getTextList cs
where
  getTextList : List Node → String
    | [] => ""
    | n :: ns => n.getText ++ getTextList ns

/-- Whether a node is a tag (BeautifulSoup `Tag` vs `NavigableString`). -/
def Node.isElem : Node → Bool
  | .elem .. => true
  | .text _ => false

/-- Attribute lookup on a tag. -/
def Node.attrVal : Node → String → Option String
  | .elem _ attrs _, k => (attrs.find? (fun kv => kv.1 = k)).map (fun kv => kv.2)
  | .text _, _ => none

example : clean_text "  Hola   &amp;  mundo " = "Hola & mundo" := by rfl
example : is_placeholder "Añadir Teléfono" = true := by rfl
example : is_placeholder "ACME S.L." = false := by rfl

mutual

/-- `soup.find(...)` with a tag predicate: first matching tag in
document (preorder) order, searching the descendants of the node. -/
def findFirst (p : Node → Bool) : Node → Option Node
  | .text _ => none
  | .elem _ _ cs => findFirstList p cs

def findFirstList (p : Node → Bool) : List Node → Option Node
  | [] => none
  | c :: rest =>
    if c.isElem && p c then some c
    else
      match findFirst p c with
      | some r => some r
      | none => findFirstList p rest

end

mutual

/-- All occurrences of `<h3>` descendants in document (preorder) order,
each with its sibling context: the parent's children list, the index of
the `h3` in it, and the `h3` node itself (`soup.find_all("h3")`, with
the context needed for `find_next_sibling` and `parent`). -/
def h3Occs : Node → List (List Node × Nat × Node)
  | .text _ => []
  | .elem _ _ cs => h3OccsList cs cs 0

def h3OccsList (siblings : List Node) : List Node → Nat → List (List Node × Nat × Node)
  | [], _ => []
  | c :: rest, i =>
    (match c with
     | .elem "h3" _ _ => [(siblings, i, c)]
     | _ => []) ++ h3Occs c ++ h3OccsList siblings rest (i + 1)

end

/-- `h3.find_next_sibling()`: the next sibling that is a tag, skipping
text nodes. -/
def nextSiblingTag (siblings : List Node) (i : Nat) : Option Node :=
  (siblings.drop (i + 1)).find? Node.isElem

/-- One step of `_extract_field_value`'s loop body for a single found
`h3`: `none` means the loop continues with the next `h3`.

Strategy 1: the immediately following sibling tag's text, accepted if
non-empty and not a placeholder.  Strategy 2: join the cleaned texts of
the parent's other children (any child equal — by markup — to the `h3`
is excluded, and both tag children and bare text children contribute
their cleaned text), keeping only non-empty non-placeholder pieces;
accepted if the joined string is non-empty. -/
def fieldFromOcc (field_label : String) : List Node × Nat × Node → Option String
  | (siblings, i, h3) =>
    let h3_text := clean_text h3.getText
    if containsSub (lowerAscii h3_text) (lowerAscii field_label) then
      let sibValue : Option String :=
        match nextSiblingTag siblings i with
        | some sib =>
          let value := clean_text sib.getText
          if value ≠ "" && !is_placeholder value then some value else none
        | none => none
      match sibValue with
      | some v => some v
      | none =>
        let texts := siblings.filterMap (fun c =>
          if nodeEq c h3 then none else some (clean_text c.getText))
        let value := String.intercalate " "
          (texts.filter (fun t => t ≠ "" && !is_placeholder t))
        if value ≠ "" then some value else none
    else none

/-- First hit of a list of optional results (the `return` inside the
`for h3 in soup.find_all("h3")` loop). -/
def firstSome : List (Option String) → Option String
  | [] => none
  | some v :: _ => some v
  | none :: rest => firstSome rest

/-- `_extract_field_value` (parser.py): label-anchored search over all
`h3` headings; `""` when no heading yields a value. -/
def extract_field_value (soup : Node) (field_label : String) : String :=
  (firstSome ((h3Occs soup).map (fieldFromOcc field_label))).getD ""

/-! ## The entity record (models.py `Empresa`) -/

/-- `Empresa` (models.py): flat record of extracted string attributes,
all defaulting to `""`. -/
structure Empresa where
  razon_social : String := ""
  cif : String := ""
  forma_juridica : String := ""
  url_ficha : String := ""
  sector : String := ""
  actividad : String := ""
  cnae : String := ""
  objeto_social : String := ""
  estado : String := ""
  fecha_constitucion : String := ""
  direccion : String := ""
  telefono : String := ""
  email : String := ""
  web : String := ""
  ventas : String := ""
  num_empleados : String := ""
  participaciones : String := ""
  operaciones_internacionales : String := ""
  grupo_sector : String := ""
  cotiza_bolsa : String := ""
deriving DecidableEq, Repr

/-! ## `parse_company_page` (parser.py) -/

/-- `or`-chaining of fallbacks on Python's string truthiness:
an empty first candidate falls through to the second. -/
def orElseStr (a b : String) : String := if a = "" then b else a

/-- The `<title>`-based last-resort fallback for the company name:
split the cleaned title on `" - "` and keep the left-hand side. -/
def titleFallback (soup : Node) : String :=
  match findFirst (fun n => match n with | .elem t _ _ => t = "title" | _ => false) soup with
  | some title =>
    let title_text := clean_text title.getText
    if containsSub title_text " - " then
      ((title_text.splitOn " - ").headD "").trim
    else ""
  | none => ""

/-- `parse_company_page` (parser.py): extract every attribute of the
entity record from the soup, storing the given URL unchanged in
`url_ficha`. -/
def parse_company_page (soup : Node) (url : String) : Empresa :=
  let razon0 := extract_field_value soup "Razón social"
  let razon1 := orElseStr razon0 (extract_field_value soup "Razón Social")
  let razon := orElseStr razon1 (titleFallback soup)
  let direccion0 := extract_field_value soup "Direcci"
  let direccion :=
    if direccion0 = "" then
      match findFirst (fun n => n.attrVal "itemprop" = some "address") soup with
      | some addr => clean_text addr.getText
      | none => direccion0
    else direccion0
  let web0 := orElseStr (extract_field_value soup "Web") (extract_field_value soup "Página web")
  let web := if web0 ≠ "" && is_placeholder web0 then "" else web0
  { url_ficha := url
    razon_social := razon
    cif := extract_field_value soup "CIF"
    forma_juridica := extract_field_value soup "Forma jur"
    sector := extract_field_value soup "Sector"
    fecha_constitucion := extract_field_value soup "Fecha de constituci"
    objeto_social := extract_field_value soup "Objeto social"
    actividad := orElseStr (extract_field_value soup "Actividad CNAE")
      (extract_field_value soup "Actividad")
    cnae := extract_field_value soup "CNAE"
    estado := extract_field_value soup "Estado"
    direccion := direccion
    telefono := orElseStr (extract_field_value soup "Teléfono")
      (extract_field_value soup "Tel")
    email := orElseStr (extract_field_value soup "Email")
      (extract_field_value soup "Correo")
    web := web
    ventas := orElseStr (orElseStr (extract_field_value soup "ventas")
      (extract_field_value soup "Facturación"))
      (extract_field_value soup "Evolución de ventas")
    num_empleados := orElseStr (extract_field_value soup "empleados")
      (extract_field_value soup "Número de empleados")
    participaciones := extract_field_value soup "Participaciones"
    operaciones_internacionales := extract_field_value soup "Operaciones Internacional"
    grupo_sector := extract_field_value soup "Grupo Sector"
    cotiza_bolsa := extract_field_value soup "Cotiza" }

/-! ## `parse_result_count` (parser.py) -/

/-- Match of `(\d+)\s*empresas?` anchored at the current position:
a maximal digit run, optional whitespace, then the literal `empresa`
(the optional plural `s` never affects the match). -/
def matchCountAt (cs : List Char) : Option Nat :=
  let ds := cs.takeWhile Char.isDigit
  if ds.isEmpty then none
  else
    let rest := (cs.drop ds.length).dropWhile isWsChar
    if "empresa".toList.isPrefixOf rest then some (digitsToNat ds) else none

/-- `re.search(r"(\d+)\s*empresas?", text)`: leftmost match. -/
def searchCountPat : List Char → Option Nat
  | [] => none
  | c :: cs =>
    match matchCountAt (c :: cs) with
    | some n => some n
    | none => searchCountPat cs

/-- Match of `Hemos encontrado\s+(\d+)\s+empresas?` anchored at the
current position. -/
def matchHemosAt (cs : List Char) : Option Nat :=
  if "Hemos encontrado".toList.isPrefixOf cs then
    let r1 := cs.drop 16
    let ws1 := r1.takeWhile isWsChar
    if ws1.isEmpty then none
    else
      let r2 := r1.drop ws1.length
      let ds := r2.takeWhile Char.isDigit
      if ds.isEmpty then none
      else
        let r3 := r2.drop ds.length
        let ws2 := r3.takeWhile isWsChar
        if ws2.isEmpty then none
        else
          let r4 := r3.drop ws2.length
          if "empresa".toList.isPrefixOf r4 then some (digitsToNat ds) else none
  else none

/-- `re.search(r"Hemos encontrado\s+(\d+)\s+empresas?", text)`:
leftmost match. -/
def searchHemosPat : List Char → Option Nat
  | [] => none
  | c :: cs =>
    match matchHemosAt (c :: cs) with
    | some n => some n
    | none => searchHemosPat cs

/-- The `id="filter-numresultados"` results-summary element. -/
def findResultsElem (soup : Node) : Option Node :=
  findFirst (fun n => n.attrVal "id" = some "filter-numresultados") soup

/-- `parse_result_count` (parser.py): the count from the designated
results-summary element if it exists and matches; otherwise the
stricter `Hemos encontrado …` pattern over the full page text;
otherwise `0`. -/
def parse_result_count (soup : Node) : Nat :=
  match findResultsElem soup with
  | some el =>
    match searchCountPat (el.getText).toList with
    | some n => n
    | none => (searchHemosPat (soup.getText).toList).getD 0
  | none => (searchHemosPat (soup.getText).toList).getD 0

/-! ## `build_listing_url` (url_builder.py) -/

/-- `BASE_URL` (config.py). -/
def BASE_URL : String := "https://empresite.eleconomista.es"

/-- Python truthiness of an optional string argument: `None` and `""`
are both falsy ("absent"). -/
def truthy : Option String → Bool
  | none => false
  | some s => !s.isEmpty

/-- The `parts` list assembled by `build_listing_url`: base URL, then
the activity segment if present, then exactly one location segment —
locality takes precedence over province. -/
def listing_parts (actividad_slug provincia_slug localidad_slug : Option String) :
    List String :=
  [BASE_URL]
    ++ (if truthy actividad_slug then ["/Actividad/" ++ actividad_slug.getD ""] else [])
    ++ (if truthy localidad_slug then ["/localidad/" ++ localidad_slug.getD ""]
        else if truthy provincia_slug then ["/provincia/" ++ provincia_slug.getD ""]
        else [])

/-- `build_listing_url` (url_builder.py): raises `ValueError` when all
three filters are absent (Python-falsy); otherwise joins the parts,
appends `/`, and appends the `PgNum-N/` suffix for pages ≥ 2. -/
def build_listing_url (actividad_slug provincia_slug localidad_slug : Option String)
    (page : Nat) : Except String String :=
  if truthy actividad_slug || truthy provincia_slug || truthy localidad_slug then
    .ok (String.join (listing_parts actividad_slug provincia_slug localidad_slug)
      ++ "/" ++ (if page > 1 then "PgNum-" ++ toString page ++ "/" else ""))
  else
    .error "Debe especificar al menos un filtro (actividad, provincia o localidad)"

/-! ## The progress ledger (models.py `ScrapeProgress`) -/

/-- `ScrapeProgress` (models.py): expected total, success sequence and
`{url, error}` failure sequence. -/
structure ScrapeProgress where
  total_esperado : Nat := 0
  empresas_ok : List Empresa := []
  empresas_error : List (String × String) := []
deriving DecidableEq, Repr

/-- `total_procesadas`: successes plus failures. -/
def ScrapeProgress.total_procesadas (p : ScrapeProgress) : Nat :=
  p.empresas_ok.length + p.empresas_error.length

/-- `tasa_exito`: success percentage, `0.0` when nothing was processed
(the float is modelled exactly as a rational). -/
def ScrapeProgress.tasa_exito (p : ScrapeProgress) : ℚ :=
  if p.total_procesadas = 0 then 0
  else (p.empresas_ok.length : ℚ) / (p.total_procesadas : ℚ) * 100

/-- `add_success`: append a record to the success sequence. -/
def ScrapeProgress.add_success (p : ScrapeProgress) (empresa : Empresa) : ScrapeProgress :=
  { p with empresas_ok := p.empresas_ok ++ [empresa] }

/-- `add_error`: append `{url, error}` to the failure sequence. -/
def ScrapeProgress.add_error (p : ScrapeProgress) (url error : String) : ScrapeProgress :=
  { p with empresas_error := p.empresas_error ++ [(url, error)] }

/-! ## The listing traversal (scraper.py `scrape_listing_urls`)

The network is abstracted by a `ListingSite` oracle: for each page
number, the URLs that `parse_listing_page` extracts from its markup and
whether `fetch_page` succeeds for it (a page-1 fetch failure propagates
out of the function and is outside the traversal loop being modelled;
the `try`/`except` of the source only guards pages ≥ 2). -/

/-- `RESULTS_PER_PAGE` (config.py). -/
def RESULTS_PER_PAGE : Nat := 30

/-- Oracle for one listing run: the total reported by page 1, the URLs
each page yields, and which page fetches succeed. -/
structure ListingSite where
  total : Nat
  pageUrls : Nat → List String
  fetchOk : Nat → Bool

/-- `math.ceil(a / b)` on the exact integers involved. -/
def ceilDiv (a b : Nat) : Nat := (a + b - 1) / b

/-- Python truthiness of the optional numeric cap (`None` and `0` are
falsy; the claims only concern positive caps, so the cap is a `Nat`). -/
def capTruthy : Option Nat → Bool
  | none => false
  | some m => m ≠ 0

/-- The `for page in range(2, total_pages + 1)` loop of
`scrape_listing_urls`: break before fetching once the accumulated URL
count has reached a truthy cap; a failed fetch of a page is logged and
skipped.  Returns the accumulated URLs and the log of pages whose fetch
was attempted. -/
def listingLoop (site : ListingSite) (max_results : Option Nat) :
    List Nat → List String → List Nat → List String × List Nat
  | [], acc, log => (acc, log)
  | p :: rest, acc, log =>
    if capTruthy max_results && decide (max_results.getD 0 ≤ acc.length) then (acc, log)
    else if site.fetchOk p then
      listingLoop site max_results rest (acc ++ site.pageUrls p) (log ++ [p])
    else
      listingLoop site max_results rest acc (log ++ [p])

/-- The accumulated URLs (before truncation) and fetch log of a listing
run: page 1 is always fetched; a zero result count terminates with an
empty list; otherwise pages `2 .. ceil(min(cap-or-total, total) /
RESULTS_PER_PAGE)` are visited by `listingLoop`. -/
def listingCollected (site : ListingSite) (max_results : Option Nat) :
    List String × List Nat :=
  if site.total = 0 then ([], [1])
  else
    let effective_max :=
      match max_results with
      | some m => if 0 < m then m else site.total
      | none => site.total
    let total_pages := ceilDiv (min effective_max site.total) RESULTS_PER_PAGE
    listingLoop site max_results (List.range' 2 (total_pages - 1)) (site.pageUrls 1) [1]

/-- `scrape_listing_urls` (scraper.py): the collected URLs truncated to
a truthy cap, the total reported by the site, and the fetch log. -/
def scrape_listing_urls (site : ListingSite) (max_results : Option Nat) :
    List String × Nat × List Nat :=
  let collected := listingCollected site max_results
  if site.total = 0 then ([], 0, collected.2)
  else
    ((if capTruthy max_results then collected.1.take (max_results.getD 0) else collected.1),
      site.total, collected.2)

/-! ## The entity traversal (scraper.py `run`, phase 2)

`scrape_company` (fetch + extract) is abstracted by an oracle from the
URL to either a record or the message of the raised exception; the
incremental JSON flush is external I/O and does not affect the ledger. -/

/-- The body of the phase-2 loop for one URL: on success append the
record to the success sequence, on any exception append `{url, error}`
to the failure sequence. -/
def processEntity (scrape : String → Except String Empresa)
    (progress : ScrapeProgress) (url : String) : ScrapeProgress :=
  match scrape url with
  | .ok empresa => progress.add_success empresa
  | .error msg => progress.add_error url msg

/-- The phase-2 loop of `run`: process every discovered URL in order;
failures never abort the loop. -/
def processEntities (scrape : String → Except String Empresa)
    (progress : ScrapeProgress) : List String → ScrapeProgress
  | [] => progress
  | url :: rest => processEntities scrape (processEntity scrape progress url) rest

/-! ## The page fetcher (scraper.py `fetch_page`)

One `fetch_page(url)` call is modelled against an oracle giving, for
each attempt number, the outcome the network produces for the request
of that attempt.  The externally visible behaviour is returned as an
event list: the inter-request `_delay()`, the request itself, the
backoff `time.sleep`, and the User-Agent swap. -/

/-- `MAX_RETRIES` (config.py). -/
def MAX_RETRIES : Nat := 4

/-- `RETRY_BACKOFF_BASE` (config.py). -/
def RETRY_BACKOFF_BASE : Nat := 30

/-- The outcome the network produces for one issued request:
a clean 200 body, a 200 body with anti-bot challenge markers, a 429
with an optional `Retry-After` header, a 404, some other HTTP error
status, or a network-level failure (`requests.RequestException`, in
which case no response object is ever received). -/
inductive Outcome where
  | ok (html : String)
  | okCaptcha
  | s429 (retryAfter : Option Nat)
  | s404
  | httpErr
  | netErr
deriving DecidableEq, Repr

/-- Externally visible events of a `fetch_page` call. -/
inductive FetchEv where
  | delay
  | req
  | sleep (secs : Nat)
  | uaSwap
deriving DecidableEq, Repr

/-- The session state a `fetch_page` call reads and writes:
`_request_count` (incremented once per *received response*, so not on a
network-level failure) and whether the User-Agent has been swapped to
the secondary identity.  The last recorded error is the exception
re-raised when the attempt budget is spent. -/
structure FetchState where
  count : Nat := 0
  uaSwapped : Bool := false
deriving DecidableEq, Repr

/-- The error taxonomy of a `fetch_page` call. -/
inductive FetchErr where
  | captcha
  | rateLimited (wait : Nat)
  | notFound
  | netFail
  | exhausted
deriving DecidableEq, Repr

/-- The retry loop `for attempt in range(MAX_RETRIES)` of `fetch_page`,
with `fuel` attempts remaining.  Each iteration: apply the
inter-request delay iff at least one response has been received by this
session, issue the request, then dispatch on the outcome exactly as the
source does (the `raise_for_status` of any other error status raises a
`requests.HTTPError`, which the `except requests.RequestException`
branch catches and retries with exponential backoff). -/
def fetchGo (oc : Nat → Outcome) (lastError : Option FetchErr) :
    Nat → Nat → FetchState → Except FetchErr String × FetchState × List FetchEv
  | 0, _, st => (.error (lastError.getD .exhausted), st, [])
  | fuel + 1, attempt, st =>
    let pre : List FetchEv := (if 0 < st.count then [.delay] else []) ++ [.req]
    match oc attempt with
    | .ok html => (.ok html, { st with count := st.count + 1 }, pre)
    | .okCaptcha =>
      let wait := RETRY_BACKOFF_BASE * 2 ^ attempt
      let rest := fetchGo oc (some .captcha) fuel (attempt + 1)
        { count := st.count + 1, uaSwapped := true }
      (rest.1, rest.2.1, pre ++ [.uaSwap, .sleep wait] ++ rest.2.2)
    | .s429 retryAfter =>
      let wait := retryAfter.getD RETRY_BACKOFF_BASE * 2 ^ attempt
      let rest := fetchGo oc (some (.rateLimited wait)) fuel (attempt + 1)
        { st with count := st.count + 1 }
      (rest.1, rest.2.1, pre ++ [.sleep wait] ++ rest.2.2)
    | .s404 => (.error .notFound, { st with count := st.count + 1 }, pre)
    | .httpErr =>
      let wait := RETRY_BACKOFF_BASE * 2 ^ attempt
      let rest := fetchGo oc (some .netFail) fuel (attempt + 1)
        { st with count := st.count + 1 }
      (rest.1, rest.2.1, pre ++ [.sleep wait] ++ rest.2.2)
    | .netErr =>
      let wait := RETRY_BACKOFF_BASE * 2 ^ attempt
      let rest := fetchGo oc (some .netFail) fuel (attempt + 1) st
      (rest.1, rest.2.1, pre ++ [.sleep wait] ++ rest.2.2)

/-- `fetch_page` (scraper.py): run the retry loop from attempt 0 with
the full attempt budget and no recorded error. -/
def fetch_page (oc : Nat → Outcome) (st : FetchState) :
    Except FetchErr String × FetchState × List FetchEv :=
  fetchGo oc none MAX_RETRIES 0 st

/-- The number of requests issued in an event list. -/
def countReqs (tr : List FetchEv) : Nat :=
  (tr.filter (fun e => e = FetchEv.req)).length

/-- For each request of an event list, whether an inter-request delay
immediately precedes it. -/
def delayFlagsAux : Bool → List FetchEv → List Bool
  | _, [] => []
  | prev, .req :: rest => prev :: delayFlagsAux false rest
  | _, .delay :: rest => delayFlagsAux true rest
  | _, _ :: rest => delayFlagsAux false rest

/-- Delay flags of a full event list. -/
def delayFlags (tr : List FetchEv) : List Bool :=
  delayFlagsAux false tr

/-- Whether an outcome means the attempt loop continues (a retried
soft failure). -/
def Outcome.retriable : Outcome → Bool
  | .okCaptcha | .s429 _ | .httpErr | .netErr => true
  | .ok _ | .s404 => false

/-- Whether a response object was received for the outcome (everything
except a network-level failure), i.e. whether `_request_count` grows. -/
def Outcome.respReceived : Outcome → Bool
  | .netErr => false
  | _ => true

/-- The delay pattern predicted from the response count alone: each
attempt is delayed iff the session has already received at least one
response; the recursion stops when the outcome is terminal. -/
def expectedDelayFlags (oc : Nat → Outcome) : Nat → Nat → Nat → List Bool
  | 0, _, _ => []
  | fuel + 1, attempt, count =>
    decide (0 < count) ::
      (if (oc attempt).retriable then
        expectedDelayFlags oc fuel (attempt + 1)
          (count + (if (oc attempt).respReceived then 1 else 0))
      else [])

/-! ## Claims -/

/-- C9: for every markup input and every URL string, the record
returned by `parse_company_page` has `url_ficha` equal to exactly the
URL passed in, regardless of markup content. -/
theorem c9_url_ficha_identity (soup : Node) (url : String) :
    (parse_company_page soup url).url_ficha = url := rfl

/-- C10: the success-rate computation is total: with zero processed
URLs it returns `0.0` instead of dividing by zero, otherwise it is
successes over processed count times 100 (and it always lies in
`[0, 100]`). -/
theorem c10_tasa_exito_total (p : ScrapeProgress) :
    (p.total_procesadas = 0 → p.tasa_exito = 0) ∧
    (p.total_procesadas ≠ 0 →
      p.tasa_exito = (p.empresas_ok.length : ℚ) / (p.total_procesadas : ℚ) * 100) ∧
    0 ≤ p.tasa_exito ∧ p.tasa_exito ≤ 100 := by
  unfold ScrapeProgress.tasa_exito
  by_cases h : p.total_procesadas = 0
  · simp [h]
  · have htot : (0 : ℚ) < (p.total_procesadas : ℚ) := by
      exact_mod_cast Nat.pos_of_ne_zero h
    have hok : (p.empresas_ok.length : ℚ) ≤ (p.total_procesadas : ℚ) := by
      have : p.empresas_ok.length ≤ p.total_procesadas := Nat.le_add_right _ _
      exact_mod_cast this
    have hdiv : (p.empresas_ok.length : ℚ) / (p.total_procesadas : ℚ) ≤ 1 :=
      (div_le_one htot).mpr hok
    refine ⟨fun hc => absurd hc h, fun _ => by simp [h], ?_, ?_⟩
    · simp only [h, if_false]
      positivity
    · simp only [h, if_false]
      calc (p.empresas_ok.length : ℚ) / (p.total_procesadas : ℚ) * 100
          ≤ 1 * 100 := by
            exact mul_le_mul_of_nonneg_right hdiv (by norm_num)
        _ = 100 := by norm_num

/-- C10 witness: an empty ledger has success rate 0, a ledger with one
success and one failure has success rate 50. -/
theorem c10_witness :
    (⟨0, [], []⟩ : ScrapeProgress).tasa_exito = 0 ∧
    (⟨2, [{}], [("u", "e")]⟩ : ScrapeProgress).tasa_exito
      = (1 : ℚ) / 2 * 100 := by
  constructor
  · exact (c10_tasa_exito_total ⟨0, [], []⟩).1 rfl
  · have h := (c10_tasa_exito_total ⟨2, [{}], [("u", "e")]⟩).2.1 (by decide)
    simpa using h

/-- C3: a URL whose fetch-and-extract raises is recorded as
`{url, error}` in the failure sequence, adds nothing to the success
sequence, and the traversal continues with exactly the remaining URLs
(per-entity failures never abort the run). -/
theorem c3_failure_recorded_and_run_continues
    (scrape : String → Except String Empresa) (progress : ScrapeProgress)
    (url msg : String) (post : List String) (h : scrape url = .error msg) :
    processEntities scrape progress (url :: post)
      = processEntities scrape (progress.add_error url msg) post ∧
    (processEntity scrape progress url).empresas_ok = progress.empresas_ok ∧
    (processEntity scrape progress url).empresas_error
      = progress.empresas_error ++ [(url, msg)] := by
  refine ⟨?_, ?_, ?_⟩ <;>
    simp [processEntities, processEntity, h, ScrapeProgress.add_error]

/-- C3 witness: with an oracle that raises on `"u"`, processing
`["u", "v"]` records the failure and continues with `["v"]`. -/
theorem c3_witness :
    processEntities (fun _ => .error "404") {} ["u", "v"]
      = processEntities (fun _ => .error "404")
          (ScrapeProgress.add_error {} "u" "404") ["v"] :=
  (c3_failure_recorded_and_run_continues (fun _ => .error "404") {} "u" "404"
    ["v"] rfl).1

/-- C7: `build_listing_url` fails if and only if the activity, province
and locality selectors are all absent (Python-falsy: `None` or the
empty string); with at least one selector it returns a URL without
raising. -/
theorem c7_invalid_selector_iff_all_absent
    (a p l : Option String) (page : Nat) :
    ((∃ e, build_listing_url a p l page = .error e) ↔
      (truthy a = false ∧ truthy p = false ∧ truthy l = false)) ∧
    ((truthy a || truthy p || truthy l) = true →
      ∃ u, build_listing_url a p l page = .ok u) := by
  by_cases h : (truthy a || truthy p || truthy l) = true
  · have hok : build_listing_url a p l page
        = .ok (String.join (listing_parts a p l) ++ "/"
          ++ (if page > 1 then "PgNum-" ++ toString page ++ "/" else "")) := by
      unfold build_listing_url
      rw [if_pos h]
    refine ⟨?_, fun _ => ⟨_, hok⟩⟩
    constructor
    · intro ⟨e, he⟩
      simp [build_listing_url, h] at he
    · intro ⟨ha, hp, hl⟩
      rw [ha, hp, hl] at h
      simp at h
  · have h' : truthy a = false ∧ truthy p = false ∧ truthy l = false := by
      rcases Bool.eq_false_or_eq_true (truthy a) with ha | ha <;>
        rcases Bool.eq_false_or_eq_true (truthy p) with hp | hp <;>
        rcases Bool.eq_false_or_eq_true (truthy l) with hl | hl <;>
        simp_all
    refine ⟨⟨fun _ => h',
      fun _ => ⟨"Debe especificar al menos un filtro (actividad, provincia o localidad)", ?_⟩⟩,
      fun hc => absurd hc h⟩
    unfold build_listing_url
    rw [if_neg h]

/-- C7 witness: no selectors at all fail, a lone activity selector
succeeds. -/
theorem c7_witness :
    (∃ e, build_listing_url none none none 1 = .error e) ∧
    (∃ u, build_listing_url (some "PESCA") none none 1 = .ok u) :=
  ⟨(c7_invalid_selector_iff_all_absent none none none 1).1.mpr
      ⟨rfl, rfl, rfl⟩,
    (c7_invalid_selector_iff_all_absent (some "PESCA") none none 1).2 rfl⟩

/-- A stub listing page yielding `n` distinct entity URLs. -/
def pageUrlStub (pref : String) (n : Nat) : List String :=
  (List.range n).map (fun i => pref ++ toString i)

/-- The end-to-end scenario site: 65 results reported, pages 1 and 2
carry 30 entity URLs each, page 3 carries the remaining 5, and every
fetch succeeds. -/
def site65 : ListingSite :=
  { total := 65
    pageUrls := fun p =>
      if p = 1 then pageUrlStub "pagina1-" 30
      else if p = 2 then pageUrlStub "pagina2-" 30
      else if p = 3 then pageUrlStub "pagina3-" 5
      else []
    fetchOk := fun _ => true }

/-- C2: with a positive cap the returned list has exactly
`min cap collected` entries (the final list is truncated to the cap);
the page loop stops — fetching nothing further — as soon as the
accumulated URL count has reached the cap; and in the concrete
65-results / cap-40 scenario exactly 40 URLs are returned, only pages 1
and 2 are fetched, although 3 pages of results exist. -/
theorem c2_cap_truncation_and_early_stop (site : ListingSite) (m : Nat)
    (hm : 0 < m) :
    (scrape_listing_urls site (some m)).1.length
      = min m (listingCollected site (some m)).1.length ∧
    (∀ pages acc log, m ≤ acc.length →
      listingLoop site (some m) pages acc log = (acc, log)) ∧
    (scrape_listing_urls site65 (some 40)).1.length = 40 ∧
    (scrape_listing_urls site65 (some 40)).2.2 = [1, 2] ∧
    ceilDiv site65.total RESULTS_PER_PAGE = 3 := by
  have hc : capTruthy (some m) = true := by
    simp [capTruthy]
    omega
  refine ⟨?_, ?_, by rfl, by rfl, by rfl⟩
  · unfold scrape_listing_urls
    by_cases h : site.total = 0
    · simp [h, listingCollected]
    · simp [h, hc, List.length_take]
  · intro pages acc log hlen
    cases pages with
    | nil => rfl
    | cons p rest =>
      unfold listingLoop
      rw [if_pos]
      rw [hc]
      simpa using hlen

/-- C2 witness: the cap-truncation equation at the concrete scenario
site with cap 40. -/
theorem c2_witness :
    (scrape_listing_urls site65 (some 40)).1.length
      = min 40 (listingCollected site65 (some 40)).1.length :=
  (c2_cap_truncation_and_early_stop site65 40 (by decide)).1

/-- `str.startswith`: whether a URL segment string starts with the
given prefix. -/
def strStarts (s pre : String) : Bool :=
  pre.toList.isPrefixOf s.toList

/-- A string that continues an 11-character literal cannot start with a
different 11-character literal. -/
theorem strStarts_append_ne (pre1 pre2 s : String)
    (hlen : pre1.toList.length = pre2.toList.length) (hne : pre1 ≠ pre2) :
    strStarts (pre1 ++ s) pre2 = false := by
  rw [Bool.eq_false_iff]
  intro hpf
  have hp : pre2.toList <+: (pre1 ++ s).toList :=
    List.isPrefixOf_iff_prefix.mp hpf
  obtain ⟨t, ht⟩ := hp
  rw [show (pre1 ++ s).toList = pre1.toList ++ s.toList from
    String.data_append pre1 s] at ht
  have := (List.append_inj ht hlen.symm).1
  exact hne (congrArg String.mk this.symm)

theorem act_not_prov (s : String) :
    strStarts ("/Actividad/" ++ s) "/provincia/" = false :=
  strStarts_append_ne _ _ _ (by decide) (by decide)

theorem act_not_loc (s : String) :
    strStarts ("/Actividad/" ++ s) "/localidad/" = false :=
  strStarts_append_ne _ _ _ (by decide) (by decide)

theorem loc_not_prov (s : String) :
    strStarts ("/localidad/" ++ s) "/provincia/" = false :=
  strStarts_append_ne _ _ _ (by decide) (by decide)

theorem loc_not_act (s : String) :
    strStarts ("/localidad/" ++ s) "/Actividad/" = false :=
  strStarts_append_ne _ _ _ (by decide) (by decide)

theorem prov_not_loc (s : String) :
    strStarts ("/provincia/" ++ s) "/localidad/" = false :=
  strStarts_append_ne _ _ _ (by decide) (by decide)

theorem prov_not_act (s : String) :
    strStarts ("/provincia/" ++ s) "/Actividad/" = false :=
  strStarts_append_ne _ _ _ (by decide) (by decide)

theorem base_not_prov : strStarts BASE_URL "/provincia/" = false := by decide

theorem base_not_loc : strStarts BASE_URL "/localidad/" = false := by decide

theorem base_not_act : strStarts BASE_URL "/Actividad/" = false := by decide

theorem empty_not_prov : strStarts "" "/provincia/" = false := by decide

theorem empty_not_loc : strStarts "" "/localidad/" = false := by decide

theorem empty_not_act : strStarts "" "/Actividad/" = false := by decide

/-- C8: the segments composed into the listing URL never include both a
province segment and a locality segment; when locality and province are
both supplied only the locality segment appears; and the activity
segment (when present) precedes any location segment. -/
theorem c8_locality_suppresses_province_and_order (a p l : Option String) :
    (¬ ((∃ x ∈ listing_parts a p l, strStarts x "/provincia/" = true) ∧
        (∃ x ∈ listing_parts a p l, strStarts x "/localidad/" = true))) ∧
    (truthy l = true → truthy p = true →
      ("/localidad/" ++ l.getD "") ∈ listing_parts a p l ∧
      ∀ x ∈ listing_parts a p l, strStarts x "/provincia/" = false) ∧
    (∀ i j : Nat,
      strStarts ((listing_parts a p l).getD i "") "/Actividad/" = true →
      (strStarts ((listing_parts a p l).getD j "") "/localidad/" = true ∨
       strStarts ((listing_parts a p l).getD j "") "/provincia/" = true) →
      i < j) := by
  refine ⟨?_, ?_, ?_⟩
  · rcases Bool.eq_false_or_eq_true (truthy a) with ha | ha <;>
      rcases Bool.eq_false_or_eq_true (truthy l) with hl | hl <;>
      rcases Bool.eq_false_or_eq_true (truthy p) with hp | hp <;>
      simp [listing_parts, ha, hl, hp, act_not_prov, act_not_loc, loc_not_prov,
        prov_not_loc, base_not_prov, base_not_loc]
  · intro hl2 hp2
    rcases Bool.eq_false_or_eq_true (truthy a) with ha | ha <;>
      simp [listing_parts, ha, hl2, hp2, act_not_prov, base_not_prov,
        loc_not_prov]
  · intro i j h1 h2
    rcases Bool.eq_false_or_eq_true (truthy a) with ha | ha <;>
      rcases Bool.eq_false_or_eq_true (truthy l) with hl | hl <;>
      rcases Bool.eq_false_or_eq_true (truthy p) with hp | hp <;>
      rcases i with _ | _ | _ | i <;> rcases j with _ | _ | _ | j <;>
      simp_all [listing_parts, act_not_prov, act_not_loc, loc_not_prov,
        loc_not_act, prov_not_loc, prov_not_act, base_not_prov, base_not_loc,
        base_not_act, empty_not_prov, empty_not_loc, empty_not_act]

/-- C8 witness: both selectors supplied — the locality segment is a
part and no part carries a province segment. -/
theorem c8_witness :
    ("/localidad/" ++ (some "VIGO-PONTEVEDRA").getD "")
        ∈ listing_parts (some "PESCA") (some "PONTEVEDRA") (some "VIGO-PONTEVEDRA") ∧
    ∀ x ∈ listing_parts (some "PESCA") (some "PONTEVEDRA") (some "VIGO-PONTEVEDRA"),
      strStarts x "/provincia/" = false :=
  (c8_locality_suppresses_province_and_order (some "PESCA") (some "PONTEVEDRA")
    (some "VIGO-PONTEVEDRA")).2.1 rfl rfl

/-- The empty string contains no placeholder phrase. -/
theorem is_placeholder_empty : is_placeholder "" = false := by decide

/-- A markup input whose address is populated through the
`itemprop="address"` fallback of `parse_company_page`, which applies no
placeholder filtering. -/
def exPlaceholderDoc : Node :=
  .elem "[document]" []
    [.elem "span" [("itemprop", "address")] [.text "Añadir Dirección"]]

/-- C1 counterexample: the address field of the record extracted from
`exPlaceholderDoc` is the placeholder invitation itself — a field of an
extracted record can contain a placeholder phrase, because the
postal-address fallback (like the page-title fallback and the
parent-text concatenation) bypasses the placeholder filter. -/
theorem c1_placeholder_reaches_field :
    (parse_company_page exPlaceholderDoc "https://example.org/F.html").direccion
        = "Añadir Dirección" ∧
    is_placeholder
      (parse_company_page exPlaceholderDoc "https://example.org/F.html").direccion
        = true := ⟨rfl, rfl⟩

/-- C1 (amended): re-extracting the same markup with the same URL
yields an identical record (the extraction is a pure function of markup
and URL), and the web field never retains a placeholder phrase (it is
explicitly cleared when one is detected); other fields populated
through the fallback paths are not placeholder-filtered. -/
theorem c1_web_placeholder_free_and_deterministic (soup : Node) (url : String) :
    parse_company_page soup url = parse_company_page soup url ∧
    is_placeholder (parse_company_page soup url).web = false := by
  refine ⟨rfl, ?_⟩
  have hweb : (parse_company_page soup url).web =
      (let web0 := orElseStr (extract_field_value soup "Web")
        (extract_field_value soup "Página web")
       if web0 ≠ "" && is_placeholder web0 then "" else web0) := rfl
  rw [hweb]
  set web0 := orElseStr (extract_field_value soup "Web")
    (extract_field_value soup "Página web") with hw0
  by_cases h : (web0 ≠ "" && is_placeholder web0) = true
  · simp only [h, if_true]
    exact is_placeholder_empty
  · simp only [h, if_false]
    rw [Bool.and_eq_true] at h
    push_neg at h
    by_cases he : web0 = ""
    · rw [he]
      exact is_placeholder_empty
    · have := h (by simpa using he)
      simpa using this

/-- A markup input with no results-summary element whose full page text
matches `(\d+)\s*empresas?` but not the stricter
`Hemos encontrado\s+(\d+)\s+empresas?` pattern. -/
def exCountDoc : Node :=
  .elem "[document]" [] [.elem "p" [] [.text "5 empresas"]]

/-- C4 counterexample: on `exCountDoc` the results-summary element is
absent and the `(\d+)\s*empresas?` pattern applied to the full page
text yields 5, yet `parse_result_count` returns 0 — the fallback is
not "the same pattern": it requires the literal prefix
`Hemos encontrado`. -/
theorem c4_fallback_not_same_pattern :
    findResultsElem exCountDoc = none ∧
    searchCountPat (Node.getText exCountDoc).toList = some 5 ∧
    parse_result_count exCountDoc = 0 := ⟨rfl, rfl, rfl⟩

/-- C4 (amended): `parse_result_count` reads a non-negative count from
the results-summary element's text via the `(\d+)\s*empresas?` pattern;
when that element is absent — or present with text that pattern does
not match — it falls back to the stricter
`Hemos encontrado\s+(\d+)\s+empresas?` pattern applied to the full page
text; and it returns 0 — being a total function, it never raises —
when no pattern matches. -/
theorem c4_result_count_fallback_behaviour (soup : Node) :
    (∀ el n, findResultsElem soup = some el →
      searchCountPat (Node.getText el).toList = some n →
      parse_result_count soup = n) ∧
    (findResultsElem soup = none →
      parse_result_count soup
        = (searchHemosPat (Node.getText soup).toList).getD 0) ∧
    (∀ el, findResultsElem soup = some el →
      searchCountPat (Node.getText el).toList = none →
      parse_result_count soup
        = (searchHemosPat (Node.getText soup).toList).getD 0) ∧
    (searchHemosPat (Node.getText soup).toList = none →
      (findResultsElem soup = none ∨
        ∃ el, findResultsElem soup = some el ∧
          searchCountPat (Node.getText el).toList = none) →
      parse_result_count soup = 0) := by
  refine ⟨?_, ?_, ?_, ?_⟩
  · intro el n hel hpat
    simp only [parse_result_count, hel]
    rw [hpat]
  · intro hel
    simp [parse_result_count, hel]
  · intro el hel hpat
    simp only [parse_result_count, hel]
    rw [hpat]
  · intro hfull hcase
    rcases hcase with hel | ⟨el, hel, hpat⟩
    · simp only [parse_result_count, hel]
      rw [hfull]
      rfl
    · simp only [parse_result_count, hel]
      rw [hpat, hfull]
      rfl

/-- A markup input whose results-summary element is present but whose
text matches no count pattern, while the full page text matches the
`Hemos encontrado` fallback pattern. -/
def exCountDoc2 : Node :=
  .elem "[document]" []
    [.elem "div" [("id", "filter-numresultados")] [.text "sin resultados"],
     .elem "p" [] [.text "Hemos encontrado 7 empresas"]]

/-- C4 witness: the amended behaviour evaluated with the summary
element absent (`exCountDoc`, returning 0) and with the summary element
present but non-matching (`exCountDoc2`, falling back to the full-text
pattern). -/
theorem c4_witness :
    parse_result_count exCountDoc = 0 ∧
    parse_result_count exCountDoc2
      = (searchHemosPat (Node.getText exCountDoc2).toList).getD 0 :=
  ⟨(c4_result_count_fallback_behaviour exCountDoc).2.2.2 rfl (Or.inl rfl),
    (c4_result_count_fallback_behaviour exCountDoc2).2.2.1 _ rfl rfl⟩

theorem countReqs_nil : countReqs [] = 0 := rfl

theorem countReqs_req (tr : List FetchEv) :
    countReqs (FetchEv.req :: tr) = countReqs tr + 1 := by
  simp [countReqs]

theorem countReqs_delay (tr : List FetchEv) :
    countReqs (FetchEv.delay :: tr) = countReqs tr := by
  simp [countReqs]

theorem countReqs_sleep (w : Nat) (tr : List FetchEv) :
    countReqs (FetchEv.sleep w :: tr) = countReqs tr := by
  simp [countReqs]

theorem countReqs_uaSwap (tr : List FetchEv) :
    countReqs (FetchEv.uaSwap :: tr) = countReqs tr := by
  simp [countReqs]

/-- Reaching a 404 on attempt `attempt + k` after `k` retriable
attempts: the loop raises the terminal not-found error after exactly
`k + 1` issued requests. -/
theorem fetchGo_notFound (oc : Nat → Outcome) :
    ∀ (k fuel attempt : Nat) (le : Option FetchErr) (st : FetchState),
      k < fuel → oc (attempt + k) = .s404 →
      (∀ j, j < k → (oc (attempt + j)).retriable = true) →
      (fetchGo oc le fuel attempt st).1 = .error .notFound ∧
      countReqs (fetchGo oc le fuel attempt st).2.2 = k + 1 := by
  intro k
  induction k with
  | zero =>
    intro fuel attempt le st hk h404 _
    obtain ⟨fuel', rfl⟩ : ∃ f, fuel = f + 1 := ⟨fuel - 1, by omega⟩
    rw [Nat.add_zero] at h404
    constructor
    · simp [fetchGo, h404]
    · by_cases hc : 0 < st.count <;>
        simp [fetchGo, h404, hc, countReqs_req, countReqs_delay, countReqs_nil]
  | succ k ih =>
    intro fuel attempt le st hk h404 hret
    obtain ⟨fuel', rfl⟩ : ∃ f, fuel = f + 1 := ⟨fuel - 1, by omega⟩
    have h0 : (oc attempt).retriable = true := by
      have := hret 0 (by omega)
      simpa using this
    have hshift : oc (attempt + 1 + k) = .s404 := by
      rw [show attempt + 1 + k = attempt + (k + 1) by omega]
      exact h404
    have hretshift : ∀ j, j < k → (oc (attempt + 1 + j)).retriable = true := by
      intro j hj
      rw [show attempt + 1 + j = attempt + (j + 1) by omega]
      exact hret (j + 1) (by omega)
    cases hoc : oc attempt with
    | ok html => rw [hoc] at h0; simp [Outcome.retriable] at h0
    | s404 => rw [hoc] at h0; simp [Outcome.retriable] at h0
    | okCaptcha =>
      have hrec := ih fuel' (attempt + 1) (some .captcha)
        { count := st.count + 1, uaSwapped := true } (by omega) hshift hretshift
      refine ⟨?_, ?_⟩
      · simpa [fetchGo, hoc] using hrec.1
      · by_cases hc : 0 < st.count <;>
          simp [fetchGo, hoc, hc, countReqs_req, countReqs_delay,
            countReqs_sleep, countReqs_uaSwap, hrec.2]
    | s429 retryAfter =>
      have hrec := ih fuel' (attempt + 1) (some (.rateLimited
          (retryAfter.getD RETRY_BACKOFF_BASE * 2 ^ attempt)))
        { st with count := st.count + 1 } (by omega) hshift hretshift
      refine ⟨?_, ?_⟩
      · simpa [fetchGo, hoc] using hrec.1
      · by_cases hc : 0 < st.count <;>
          simp [fetchGo, hoc, hc, countReqs_req, countReqs_delay,
            countReqs_sleep, hrec.2]
    | httpErr =>
      have hrec := ih fuel' (attempt + 1) (some .netFail)
        { st with count := st.count + 1 } (by omega) hshift hretshift
      refine ⟨?_, ?_⟩
      · simpa [fetchGo, hoc] using hrec.1
      · by_cases hc : 0 < st.count <;>
          simp [fetchGo, hoc, hc, countReqs_req, countReqs_delay,
            countReqs_sleep, hrec.2]
    | netErr =>
      have hrec := ih fuel' (attempt + 1) (some .netFail) st
        (by omega) hshift hretshift
      refine ⟨?_, ?_⟩
      · simpa [fetchGo, hoc] using hrec.1
      · by_cases hc : 0 < st.count <;>
          simp [fetchGo, hoc, hc, countReqs_req, countReqs_delay,
            countReqs_sleep, hrec.2]

/-- C6: an HTTP 404 received on any attempt makes `fetch_page` fail
immediately with the terminal not-found error, with no further request
issued for that call. -/
theorem c6_notfound_terminal_no_retry (oc : Nat → Outcome) (st : FetchState)
    (k : Nat) (hk : k < MAX_RETRIES) (h404 : oc k = .s404)
    (hpre : ∀ j, j < k → (oc j).retriable = true) :
    (fetch_page oc st).1 = .error .notFound ∧
    countReqs (fetch_page oc st).2.2 = k + 1 :=
  fetchGo_notFound oc k MAX_RETRIES 0 none st hk (by simpa using h404)
    (by intro j hj; simpa using hpre j hj)

/-- C6 witness: a 404 on the very first attempt fails the call after a
single request. -/
theorem c6_witness :
    (fetch_page (fun _ => Outcome.s404) {}).1 = .error .notFound ∧
    countReqs (fetch_page (fun _ => Outcome.s404) {}).2.2 = 0 + 1 :=
  c6_notfound_terminal_no_retry (fun _ => Outcome.s404) {} 0 (by decide) rfl
    (fun _ hj => absurd hj (by omega))

/-- A fetch call whose first request fails at network level (no
response received) and whose retry then succeeds. -/
def ocNetThenOk : Nat → Outcome :=
  fun n => if n = 0 then .netErr else .ok "listado"

/-- C5 counterexample: starting from a fresh session, a network-level
failure on the first request leaves the response counter at zero, so
the *second* issued request of the same call is also sent without any
inter-request delay — the delay is not applied before every request
after the first one issued. -/
theorem c5_no_delay_after_network_failure :
    countReqs (fetch_page ocNetThenOk {}).2.2 = 2 ∧
    delayFlags (fetch_page ocNetThenOk {}).2.2 = [false, false] := ⟨rfl, rfl⟩

/-- The delay pattern of the retry loop is exactly the one predicted by
the count of received responses. -/
theorem fetchGo_delayFlags (oc : Nat → Outcome) :
    ∀ (fuel attempt : Nat) (le : Option FetchErr) (st : FetchState),
      delayFlags (fetchGo oc le fuel attempt st).2.2
        = expectedDelayFlags oc fuel attempt st.count := by
  intro fuel
  induction fuel with
  | zero => intro attempt le st; rfl
  | succ fuel ih =>
    intro attempt le st
    have ih' : ∀ (a : Nat) (le' : Option FetchErr) (s : FetchState),
        delayFlagsAux false (fetchGo oc le' fuel a s).2.2
          = expectedDelayFlags oc fuel a s.count :=
      fun a le' s => ih a le' s
    cases hoc : oc attempt <;> by_cases hc : 0 < st.count <;>
      simp [fetchGo, hoc, hc, delayFlags, delayFlagsAux, expectedDelayFlags,
        Outcome.retriable, Outcome.respReceived, ih']

/-- C5 (amended): an inter-request delay is applied before an issued
request if and only if the fetcher instance has already *received* at
least one HTTP response — in particular no delay precedes the very
first request of a session; a retry that follows a network-level
failure with no response yet received is likewise issued without a
delay, because the counter tracks received responses, not issued
requests. -/
theorem c5_delay_gated_by_received_responses (oc : Nat → Outcome)
    (st : FetchState) :
    delayFlags (fetch_page oc st).2.2
      = expectedDelayFlags oc MAX_RETRIES 0 st.count ∧
    (st.count = 0 →
      ∃ rest, delayFlags (fetch_page oc st).2.2 = false :: rest) := by
  have h : delayFlags (fetch_page oc st).2.2
      = expectedDelayFlags oc MAX_RETRIES 0 st.count :=
    fetchGo_delayFlags oc MAX_RETRIES 0 none st
  refine ⟨h, fun h0 => ?_⟩
  rw [h, h0]
  exact ⟨_, rfl⟩

/-- C5 witness: the amended statement evaluated on the concrete
network-failure-then-success oracle from a fresh session. -/
theorem c5_witness :
    ∃ rest, delayFlags (fetch_page ocNetThenOk {}).2.2 = false :: rest :=
  (c5_delay_gated_by_received_responses ocNetThenOk {}).2 rfl
